import Mathlib

/-!
Verification of the political-statement-evaluator repository.

Shallow embedding of:
  * `political_analysis_sdk/models.py` (enums and record dataclasses),
  * `political_analysis_sdk/core.py` (the three facet decoders
    `_analyze_questions`, `_analyze_bias`, `_analyze_sentiment`, the summary
    helper `_create_summary`, and the orchestrators `analyze_text` /
    `analyze_text_file`),
  * `political_analysis_sdk/utils/srt_to_text.py` (`parse_srt_file`'s line
    loop),
  * `whisper_diarization_sdk/core.py` (`_is_video_file`,
    `_extract_audio_from_video`, `diarize`, `_parse_output`) together with
    `whisper_diarization_sdk/models.py`.

External boundaries (the litellm completion call, Python's `json.loads`,
the filesystem, and the ffmpeg / diarization subprocesses) are modelled as
explicit parameters: a facet decoder receives the gateway outcome
(`Option String`: `none` when the completion call raised) and the JSON
parser (`String → Option Json`: `none` when `json.loads` raised), and the
diarization adapter receives an environment describing the outcomes of its
subprocess invocations, returning the trace of filesystem/process events it
performs.  Python floats are modelled as `Rat`.
-/

/-- A parsed JSON value, as produced by Python's `json.loads`.
Objects are association lists; `json.loads` produces Python dicts, whose
keys are unique, so lookup takes the first matching key. -/
inductive Json where
  | null : Json
  | bool (b : Bool) : Json
  | num (q : Rat) : Json
  | str (s : String) : Json
  | arr (elems : List Json) : Json
  | obj (fields : List (String × Json)) : Json

/-- Lookup a key in the field list of a JSON object (Python dict lookup). -/
def jsonLookup (fields : List (String × Json)) (key : String) : Option Json :=
  match fields with
  | [] => none
  | (k, v) :: rest => if k = key then some v else jsonLookup rest key

/-- Python `data.get(key, default)`.  Returns `none` when `data` is not a
dict (Python raises `AttributeError` there, which the caller's `except`
catches); otherwise the stored value, or the default when the key is
absent. -/
def Json.dictGet : Json → String → Json → Option Json
  | Json.obj fields, key, dflt =>
      match jsonLookup fields key with
      | some v => some v
      | none => some dflt
  | _, _, _ => none

/-- Python iteration `for x in v`: lists yield their elements, strings
their one-character substrings, dicts their keys; every other value raises
`TypeError` (modelled as `none`). -/
def Json.iterItems : Json → Option (List Json)
  | Json.arr elems => some elems
  | Json.str s => some (s.toList.map (fun c => Json.str (String.mk [c])))
  | Json.obj fields => some (fields.map (fun kv => Json.str kv.1))
  | _ => none

/-- The characters Python's `str.strip()` removes. -/
def pyWhitespace (c : Char) : Bool :=
  c = ' ' || c = '\t' || c = '\n' || c = '\r' || c = '\x0b' || c = '\x0c'

/-- Python `str.strip()`: drop leading and trailing whitespace. -/
def pyStrip (s : String) : String :=
  String.mk (((s.toList.dropWhile pyWhitespace).reverse.dropWhile pyWhitespace).reverse)

/-- `QuestionType` enum from `political_analysis_sdk/models.py`. -/
inductive QuestionType where
  | CRITICAL
  | CONFIRMING
  | FOLLOW_UP
  | NEUTRAL
deriving Repr, DecidableEq

/-- `QuestionType(value)` construction: succeeds exactly on the four tag
strings, raises `ValueError` (modelled `none`) on anything else. -/
def QuestionType.ofJson : Json → Option QuestionType
  | Json.str "critical" => some .CRITICAL
  | Json.str "confirming" => some .CONFIRMING
  | Json.str "follow_up" => some .FOLLOW_UP
  | Json.str "neutral" => some .NEUTRAL
  | _ => none

/-- `SentimentType` enum from `political_analysis_sdk/models.py`. -/
inductive SentimentType where
  | POSITIVE
  | NEGATIVE
  | NEUTRAL
  | MIXED
deriving Repr, DecidableEq

/-- `SentimentType(value)` construction. -/
def SentimentType.ofJson : Json → Option SentimentType
  | Json.str "positive" => some .POSITIVE
  | Json.str "negative" => some .NEGATIVE
  | Json.str "neutral" => some .NEUTRAL
  | Json.str "mixed" => some .MIXED
  | _ => none

/-- `QuestionAnalysis` dataclass.  The dataclass performs no runtime type
checking, so every non-enum field holds whatever JSON value the response
supplied (or the getter's default). -/
structure QuestionAnalysis where
  question_text : Json
  question_type : QuestionType
  confidence : Json
  reasoning : Json
  context : Json

/-- `BiasAnalysis` dataclass. -/
structure BiasAnalysis where
  adjective : Json
  target_person : Json
  bias_type : Json
  confidence : Json
  reasoning : Json
  context : Json

/-- `SentimentAnalysis` dataclass. -/
structure SentimentAnalysis where
  entity_name : Json
  entity_type : Json
  sentiment : SentimentType
  confidence : Json
  reasoning : Json
  context : Json
  supporting_quotes : Json

/-- One iteration of the loop body in `_analyze_questions`
(core.py lines 143-154): build a `QuestionAnalysis` from one array entry,
`none` when the entry raised and the inner `except` skipped it (the entry
is not a dict, or its `type` value is not a recognized enum tag). -/
def decodeQuestionEntry (q_data : Json) : Option QuestionAnalysis :=
  match q_data.dictGet "type" (Json.str "neutral") with
  | none => none
  | some tagVal =>
      match QuestionType.ofJson tagVal with
      | none => none
      | some qt =>
          match q_data.dictGet "question" (Json.str ""),
                q_data.dictGet "confidence" (Json.num 0),
                q_data.dictGet "reasoning" (Json.str ""),
                q_data.dictGet "context" (Json.str "") with
          | some qtext, some conf, some reas, some ctx =>
              some { question_text := qtext, question_type := qt,
                     confidence := conf, reasoning := reas, context := ctx }
          | _, _, _, _ => none

/-- One iteration of the loop body in `_analyze_bias`
(core.py lines 190-201).  There is no enum here, so the only failure is a
non-dict entry. -/
def decodeBiasEntry (b_data : Json) : Option BiasAnalysis :=
  match b_data.dictGet "adjective" (Json.str ""),
        b_data.dictGet "target_person" (Json.str ""),
        b_data.dictGet "bias_type" (Json.str ""),
        b_data.dictGet "confidence" (Json.num 0),
        b_data.dictGet "reasoning" (Json.str ""),
        b_data.dictGet "context" (Json.str "") with
  | some adj, some tgt, some bk, some conf, some reas, some ctx =>
      some { adjective := adj, target_person := tgt, bias_type := bk,
             confidence := conf, reasoning := reas, context := ctx }
  | _, _, _, _, _, _ => none

/-- One iteration of the loop body in `_analyze_sentiment`
(core.py lines 237-250). -/
def decodeSentimentEntry (s_data : Json) : Option SentimentAnalysis :=
  match s_data.dictGet "sentiment" (Json.str "neutral") with
  | none => none
  | some tagVal =>
      match SentimentType.ofJson tagVal with
      | none => none
      | some st =>
          match s_data.dictGet "entity_name" (Json.str ""),
                s_data.dictGet "entity_type" (Json.str ""),
                s_data.dictGet "confidence" (Json.num 0),
                s_data.dictGet "reasoning" (Json.str ""),
                s_data.dictGet "context" (Json.str ""),
                s_data.dictGet "supporting_quotes" (Json.arr []) with
          | some en, some et, some conf, some reas, some ctx, some quotes =>
              some { entity_name := en, entity_type := et, sentiment := st,
                     confidence := conf, reasoning := reas, context := ctx,
                     supporting_quotes := quotes }
          | _, _, _, _, _, _ => none

/-- The shared shape of the three facet decoders in core.py: strip the
content, return `[]` on empty content, `[]` on a JSON parse failure,
read the expected top-level key defaulting to an empty array, iterate over
it, and keep every entry whose construction succeeded, skipping the
failing ones.  A non-dict parsed value or a non-iterable key value raises
inside the outer `try`, whose handler also returns `[]`. -/
def decodeFacet {α : Type} (parseJson : String → Option Json)
    (topKey : String) (entry : Json → Option α) (rawContent : String) :
    List α :=
  let content := pyStrip rawContent
  if content = "" then []
  else
    match parseJson content with
    | none => []
    | some data =>
        match data.dictGet topKey (Json.arr []) with
        | none => []
        | some items =>
            match items.iterItems with
            | none => []
            | some xs => xs.filterMap entry

/-- `_analyze_questions` (core.py lines 115-160).  `resp` is the outcome of
the litellm completion call and the `.choices[0].message.content` access:
`none` when that raised (caught by the outer `except`, returning `[]`). -/
def analyzeQuestions (parseJson : String → Option Json)
    (resp : Option String) : List QuestionAnalysis :=
  match resp with
  | none => []
  | some rawContent => decodeFacet parseJson "questions" decodeQuestionEntry rawContent

/-- `_analyze_bias` (core.py lines 162-207). -/
def analyzeBias (parseJson : String → Option Json)
    (resp : Option String) : List BiasAnalysis :=
  match resp with
  | none => []
  | some rawContent => decodeFacet parseJson "biased_adjectives" decodeBiasEntry rawContent

/-- `_analyze_sentiment` (core.py lines 209-256). -/
def analyzeSentiment (parseJson : String → Option Json)
    (resp : Option String) : List SentimentAnalysis :=
  match resp with
  | none => []
  | some rawContent => decodeFacet parseJson "entity_sentiments" decodeSentimentEntry rawContent

/-- A Python metadata dictionary value (string or float). -/
inductive MetaVal where
  | s (v : String)
  | n (v : Rat)

/-- `AnalysisResult` dataclass from `political_analysis_sdk/models.py`. -/
structure AnalysisResult where
  text_file_path : String
  total_questions : Nat
  critical_questions : Nat
  confirming_questions : Nat
  biased_adjectives : List BiasAnalysis
  entity_sentiments : List SentimentAnalysis
  question_analysis : List QuestionAnalysis
  summary : String
  metadata : List (String × MetaVal)

/-- The analyzer configuration captured at construction
(`PoliticalStatementAnalyzer.__init__`). -/
structure AnalyzerConfig where
  model_name : String
  language : String
  temperature : Rat

/-- The external outcomes one full analysis depends on: the JSON parser and
the four completion-gateway responses (`none` = the call raised; caught by
each facet / summary guard). -/
structure FacetResponses where
  parseJson : String → Option Json
  questionsResp : Option String
  biasResp : Option String
  sentimentResp : Option String
  summaryResp : Option String

/-- `_create_summary` (core.py lines 258-280): return the stripped content,
or a Dutch fallback string when the content is empty or the call raised. -/
def createSummary (resp : Option String) : String :=
  match resp with
  | none => "Kon geen samenvatting maken vanwege een fout."
  | some rawContent =>
      let content := pyStrip rawContent
      if content = "" then "Kon geen samenvatting maken - lege reactie van het model."
      else content

/-- The shared result-assembly body of `analyze_text_file`
(core.py lines 86-113) and `analyze_text`'s `try` branch (lines 296-323):
run the three facets, the summary, and build the `AnalysisResult`, deriving
the three counts from the decoded question list. -/
def assembleResult (cfg : AnalyzerConfig) (source_path : String)
    (r : FacetResponses) : AnalysisResult :=
  let question_analysis := analyzeQuestions r.parseJson r.questionsResp
  let bias_analysis := analyzeBias r.parseJson r.biasResp
  let sentiment_analysis := analyzeSentiment r.parseJson r.sentimentResp
  let summary := createSummary r.summaryResp
  { text_file_path := source_path
    total_questions := question_analysis.length
    critical_questions :=
      (question_analysis.filter (fun q => q.question_type = QuestionType.CRITICAL)).length
    confirming_questions :=
      (question_analysis.filter (fun q => q.question_type = QuestionType.CONFIRMING)).length
    biased_adjectives := bias_analysis
    entity_sentiments := sentiment_analysis
    question_analysis := question_analysis
    summary := summary
    metadata := [("model_used", MetaVal.s cfg.model_name),
                 ("language", MetaVal.s cfg.language),
                 ("temperature", MetaVal.n cfg.temperature)] }

/-- `analyze_text` (core.py lines 282-342).  The argument is the outcome of
the outer `try` body: `.ok r` when no unexpected error escaped the
per-facet guards, `.error e` (with the exception's message) when one did;
the `except` branch then builds the degenerate self-reporting result. -/
def analyze_text (cfg : AnalyzerConfig)
    (tryOutcome : Except String FacetResponses) : AnalysisResult :=
  match tryOutcome with
  | .ok r => assembleResult cfg "direct_text_input" r
  | .error e =>
      { text_file_path := "direct_text_input"
        total_questions := 0
        critical_questions := 0
        confirming_questions := 0
        biased_adjectives := []
        entity_sentiments := []
        question_analysis := []
        summary := "Fout tijdens analyse: " ++ e
        metadata := [("model_used", MetaVal.s cfg.model_name),
                     ("language", MetaVal.s cfg.language),
                     ("temperature", MetaVal.n cfg.temperature),
                     ("error", MetaVal.s e)] }

/-- `analyze_text_file` (core.py lines 64-113): raises `FileNotFoundError`
when the file is missing (there is no outer guard here), otherwise reads
the file and assembles the result exactly as `analyze_text` does. -/
def analyze_text_file (cfg : AnalyzerConfig) (fileExists : Bool)
    (file_path : String) (r : FacetResponses) : Except String AnalysisResult :=
  if fileExists then Except.ok (assembleResult cfg file_path r)
  else Except.error ("File not found: " ++ file_path)

/-- The count/list consistency invariant of `AnalysisResult` (the spec's
AggregateResult): the three counts agree with the question list. -/
def countsConsistent (res : AnalysisResult) : Prop :=
  res.total_questions = res.question_analysis.length ∧
  res.critical_questions =
    (res.question_analysis.filter (fun q => q.question_type = QuestionType.CRITICAL)).length ∧
  res.confirming_questions =
    (res.question_analysis.filter (fun q => q.question_type = QuestionType.CONFIRMING)).length

/-- Python `str.isdigit()`: nonempty and all digit characters. -/
def pyIsDigit (s : String) : Bool :=
  !s.toList.isEmpty && s.toList.all Char.isDigit

/-- Whether `"-->"` occurs in the character list (Python `'-->' in line`). -/
def hasArrowAux : List Char → Bool
  | '-' :: '-' :: '>' :: _ => true
  | _ :: rest => hasArrowAux rest
  | [] => false

/-- Whether `"-->"` occurs in the string. -/
def hasArrow (s : String) : Bool := hasArrowAux s.toList

/-- The line loop of `parse_srt_file`
(`utils/srt_to_text.py` lines 36-57, repeated verbatim at lines 65-81 for
the Latin-1 fallback): strip each line, skip digit-only lines, lines
containing `-->`, and empty lines, keep the rest in order. -/
def srtTextLines : List String → List String
  | [] => []
  | rawLine :: rest =>
      let line := pyStrip rawLine
      if pyIsDigit line then srtTextLines rest
      else if hasArrow line then srtTextLines rest
      else if line = "" then srtTextLines rest
      else line :: srtTextLines rest

/-- The external outcomes `parse_srt_file` depends on: whether the file
exists, and the line lists produced by reading it with each encoding
(`none` = that decode raised). -/
structure SrtFile where
  fileExists : Bool
  utf8Lines : Option (List String)
  latin1Lines : Option (List String)

/-- `parse_srt_file` (`utils/srt_to_text.py` lines 13-89): missing file
raises; otherwise read lines with UTF-8, falling back to Latin-1 on a
decode error, run the line loop, and join the kept lines with single
spaces. -/
def parse_srt_file (f : SrtFile) : Except String String :=
  if !f.fileExists then Except.error "SRT file not found"
  else
    match f.utf8Lines with
    | some lines => Except.ok (String.intercalate " " (srtTextLines lines))
    | none =>
        match f.latin1Lines with
        | some lines => Except.ok (String.intercalate " " (srtTextLines lines))
        | none => Except.error "Failed to read SRT file with multiple encodings"

/-- `SpeakerSegment` dataclass from `whisper_diarization_sdk/models.py`. -/
structure SpeakerSegment where
  speaker_id : String
  start_time : Rat
  end_time : Rat
  confidence : Rat
  text : String

/-- `TranscriptionSegment` dataclass from
`whisper_diarization_sdk/models.py`. -/
structure TranscriptionSegment where
  text : String
  start_time : Rat
  end_time : Rat
  confidence : Rat
  language : Option String

/-- A Python value stored in the diarization metadata dict
(`None` or an int). -/
inductive PyVal where
  | pyNone
  | pyInt (n : Int)
deriving Repr, DecidableEq

/-- `DiarizationResult` dataclass from `whisper_diarization_sdk/models.py`. -/
structure DiarizationResult where
  audio_file : String
  speakers : List SpeakerSegment
  transcription : List TranscriptionSegment
  metadata : List (String × PyVal)

/-- `_parse_output` (`whisper_diarization_sdk/core.py` lines 195-220): the
acknowledged placeholder — ignores the subprocess stdout and returns a
structurally valid result with empty speaker and transcription lists. -/
def parse_output (output : String) (audio_file : String) : DiarizationResult :=
  let _ := output
  { audio_file := audio_file
    speakers := ([] : List SpeakerSegment)
    transcription := ([] : List TranscriptionSegment)
    metadata := [("processing_time", PyVal.pyNone),
                 ("whisper_model", PyVal.pyNone),
                 ("num_speakers", PyVal.pyInt 0),
                 ("audio_duration", PyVal.pyNone)] }

/-- The video container extensions recognized by `_is_video_file`. -/
def videoExtensions : List String :=
  [".mp4", ".avi", ".mov", ".mkv", ".wmv", ".flv", ".webm", ".m4v", ".3gp"]

/-- ASCII lowercasing of one character (what Python `.lower()` does on the
extension strings involved here). -/
def asciiLower (c : Char) : Char :=
  if 'A' ≤ c && c ≤ 'Z' then Char.ofNat (c.toNat + 32) else c

/-- Python `pathlib.Path(p).suffix`: the final `.ext` of the last path
component, empty when the name has no dot strictly inside it. -/
def pathSuffix (p : String) : String :=
  let revName := p.toList.reverse.takeWhile (fun c => c ≠ '/')
  let afterRev := revName.takeWhile (fun c => c ≠ '.')
  match revName.dropWhile (fun c => c ≠ '.') with
  | [] => ""
  | _ :: beforeRev =>
      if afterRev.isEmpty then ""
      else if beforeRev.isEmpty then ""
      else String.mk ('.' :: afterRev.reverse)

/-- `_is_video_file` (`whisper_diarization_sdk/core.py` lines 63-66). -/
def is_video_file (file_path : String) : Bool :=
  videoExtensions.contains
    (String.mk ((pathSuffix file_path).toList.map asciiLower))

/-- Filesystem / process events performed by one `diarize` call, in
order. -/
inductive FsEvent where
  | createdTempAudio
  | deletedTempAudio
  | ranDiarizationSubprocess
deriving Repr, DecidableEq

/-- The external outcomes one `diarize` call depends on: whether the input
file exists, whether `ffmpeg -version` succeeds, the outcome of the ffmpeg
extraction run (`.error` = nonzero exit with that stderr), and the outcome
of the diarization subprocess (`.ok` stdout / `.error` stderr). -/
structure DiarizeEnv where
  audio_file : String
  fileExists : Bool
  ffmpegAvailable : Bool
  ffmpegExtract : Except String Unit
  diarizeSubprocess : Except String String

/-- `_extract_audio_from_video` (`whisper_diarization_sdk/core.py` lines
68-112): raise when ffmpeg is unavailable (before creating anything);
otherwise create the temporary WAV, run ffmpeg, and on a nonzero exit
delete the temporary file and raise with the captured stderr. -/
def extract_audio_from_video (env : DiarizeEnv) :
    Except String Unit × List FsEvent :=
  if !env.ffmpegAvailable then
    (Except.error ("ffmpeg is required for video processing. " ++
       "Please install ffmpeg: https://ffmpeg.org/download.html"), [])
  else
    match env.ffmpegExtract with
    | Except.ok _ => (Except.ok (), [FsEvent.createdTempAudio])
    | Except.error stderr =>
        (Except.error ("Failed to extract audio from video: " ++ stderr),
         [FsEvent.createdTempAudio, FsEvent.deletedTempAudio])

/-- `diarize` (`whisper_diarization_sdk/core.py` lines 114-193): validate
existence, extract audio first for video inputs, run the diarization
subprocess (nonzero exit becomes a `RuntimeError` carrying stderr), parse
its stdout, and in the `finally` block delete the temporary audio file
whenever it was created and still exists. -/
def diarize (env : DiarizeEnv) :
    Except String DiarizationResult × List FsEvent :=
  if !env.fileExists then
    (Except.error ("File not found: " ++ env.audio_file), [])
  else if is_video_file env.audio_file then
    match extract_audio_from_video env with
    | (Except.error e, evs) =>
        -- extraction raised: temp_audio_file was never assigned, so the
        -- finally block deletes nothing
        (Except.error e, evs)
    | (Except.ok _, evs) =>
        match env.diarizeSubprocess with
        | Except.ok out =>
            (Except.ok (parse_output out env.audio_file),
             evs ++ [FsEvent.ranDiarizationSubprocess, FsEvent.deletedTempAudio])
        | Except.error stderr =>
            (Except.error ("Diarization failed: " ++ stderr),
             evs ++ [FsEvent.ranDiarizationSubprocess, FsEvent.deletedTempAudio])
  else
    match env.diarizeSubprocess with
    | Except.ok out =>
        (Except.ok (parse_output out env.audio_file),
         [FsEvent.ranDiarizationSubprocess])
    | Except.error stderr =>
        (Except.error ("Diarization failed: " ++ stderr),
         [FsEvent.ranDiarizationSubprocess])

/-! ## Helper lemmas -/

theorem dictGet_obj (fields : List (String × Json)) (k : String) (d : Json) :
    Json.dictGet (Json.obj fields) k d = some ((jsonLookup fields k).getD d) := by
  cases h : jsonLookup fields k <;> simp [Json.dictGet, h]

theorem decodeFacet_strip_empty {α : Type} (parse : String → Option Json)
    (key : String) (entry : Json → Option α) (raw : String)
    (h : pyStrip raw = "") :
    decodeFacet parse key entry raw = [] := by
  simp [decodeFacet, h]

theorem decodeFacet_parse_failure {α : Type} (parse : String → Option Json)
    (key : String) (entry : Json → Option α) (raw : String)
    (h : parse (pyStrip raw) = none) :
    decodeFacet parse key entry raw = [] := by
  by_cases he : pyStrip raw = ""
  · simp [decodeFacet, he]
  · simp [decodeFacet, he, h]

theorem decodeFacet_missing_key {α : Type} (parse : String → Option Json)
    (key : String) (entry : Json → Option α) (raw : String)
    (fields : List (String × Json))
    (hp : parse (pyStrip raw) = some (Json.obj fields))
    (hk : jsonLookup fields key = none) :
    decodeFacet parse key entry raw = [] := by
  by_cases he : pyStrip raw = ""
  · simp [decodeFacet, he]
  · simp [decodeFacet, he, hp, dictGet_obj, hk, Json.iterItems]

theorem decodeFacet_isolate {α : Type} (parse : String → Option Json)
    (key : String) (entry : Json → Option α) (raw : String)
    (xs ys : List Json) (bad : Json)
    (hne : pyStrip raw ≠ "")
    (hp : parse (pyStrip raw) = some (Json.obj [(key, Json.arr (xs ++ bad :: ys))]))
    (hbad : entry bad = none) :
    decodeFacet parse key entry raw = xs.filterMap entry ++ ys.filterMap entry := by
  simp [decodeFacet, hne, hp, dictGet_obj, jsonLookup, Json.iterItems,
        List.filterMap_append, List.filterMap_cons, hbad]

theorem decodeQuestionEntry_obj (fields : List (String × Json)) :
    decodeQuestionEntry (Json.obj fields) =
      (QuestionType.ofJson ((jsonLookup fields "type").getD (Json.str "neutral"))).map
        (fun qt =>
          { question_text := (jsonLookup fields "question").getD (Json.str "")
            question_type := qt
            confidence := (jsonLookup fields "confidence").getD (Json.num 0)
            reasoning := (jsonLookup fields "reasoning").getD (Json.str "")
            context := (jsonLookup fields "context").getD (Json.str "") }) := by
  simp only [decodeQuestionEntry, dictGet_obj]
  cases QuestionType.ofJson ((jsonLookup fields "type").getD (Json.str "neutral")) <;> simp

theorem decodeBiasEntry_obj (fields : List (String × Json)) :
    decodeBiasEntry (Json.obj fields) =
      some { adjective := (jsonLookup fields "adjective").getD (Json.str "")
             target_person := (jsonLookup fields "target_person").getD (Json.str "")
             bias_type := (jsonLookup fields "bias_type").getD (Json.str "")
             confidence := (jsonLookup fields "confidence").getD (Json.num 0)
             reasoning := (jsonLookup fields "reasoning").getD (Json.str "")
             context := (jsonLookup fields "context").getD (Json.str "") } := by
  simp only [decodeBiasEntry, dictGet_obj]

theorem decodeSentimentEntry_obj (fields : List (String × Json)) :
    decodeSentimentEntry (Json.obj fields) =
      (SentimentType.ofJson ((jsonLookup fields "sentiment").getD (Json.str "neutral"))).map
        (fun st =>
          { entity_name := (jsonLookup fields "entity_name").getD (Json.str "")
            entity_type := (jsonLookup fields "entity_type").getD (Json.str "")
            sentiment := st
            confidence := (jsonLookup fields "confidence").getD (Json.num 0)
            reasoning := (jsonLookup fields "reasoning").getD (Json.str "")
            context := (jsonLookup fields "context").getD (Json.str "")
            supporting_quotes := (jsonLookup fields "supporting_quotes").getD (Json.arr []) }) := by
  simp only [decodeSentimentEntry, dictGet_obj]
  cases SentimentType.ofJson ((jsonLookup fields "sentiment").getD (Json.str "neutral")) <;> simp

theorem countsConsistent_assemble (cfg : AnalyzerConfig) (p : String)
    (r : FacetResponses) : countsConsistent (assembleResult cfg p r) := by
  refine ⟨rfl, rfl, rfl⟩

/-! ## Claim theorems -/

/-- C1: for every parsed response and every record-bearing facet
(questions, bias, sentiment), when one array entry fails to construct
(in particular on an unrecognized tag value), only that entry is skipped:
the decoder returns the successfully constructed records of the remaining
entries, preserving the array's order. -/
theorem C1_partial_failure_isolation :
    (∀ (parse : String → Option Json) (raw : String) (xs ys : List Json) (bad : Json),
        pyStrip raw ≠ "" →
        parse (pyStrip raw) = some (Json.obj [("questions", Json.arr (xs ++ bad :: ys))]) →
        decodeQuestionEntry bad = none →
        analyzeQuestions parse (some raw)
          = xs.filterMap decodeQuestionEntry ++ ys.filterMap decodeQuestionEntry) ∧
    (∀ (parse : String → Option Json) (raw : String) (xs ys : List Json) (bad : Json),
        pyStrip raw ≠ "" →
        parse (pyStrip raw) = some (Json.obj [("biased_adjectives", Json.arr (xs ++ bad :: ys))]) →
        decodeBiasEntry bad = none →
        analyzeBias parse (some raw)
          = xs.filterMap decodeBiasEntry ++ ys.filterMap decodeBiasEntry) ∧
    (∀ (parse : String → Option Json) (raw : String) (xs ys : List Json) (bad : Json),
        pyStrip raw ≠ "" →
        parse (pyStrip raw) = some (Json.obj [("entity_sentiments", Json.arr (xs ++ bad :: ys))]) →
        decodeSentimentEntry bad = none →
        analyzeSentiment parse (some raw)
          = xs.filterMap decodeSentimentEntry ++ ys.filterMap decodeSentimentEntry) := by
  refine ⟨?_, ?_, ?_⟩ <;>
    · intro parse raw xs ys bad hne hp hbad
      exact decodeFacet_isolate parse _ _ raw xs ys bad hne hp hbad

/-- C1 witness: a three-entry questions array whose middle entry carries the
unrecognized tag `"weird"` decodes to exactly the outer two records. -/
theorem C1_witness :
    analyzeQuestions
        (fun _ => some (Json.obj [("questions", Json.arr
          ([Json.obj [("question", Json.str "a"), ("type", Json.str "critical")]] ++
           Json.obj [("type", Json.str "weird")] ::
           [Json.obj [("question", Json.str "b")]]))]))
        (some "x")
      = [Json.obj [("question", Json.str "a"), ("type", Json.str "critical")]].filterMap
            decodeQuestionEntry
        ++ [Json.obj [("question", Json.str "b")]].filterMap decodeQuestionEntry :=
  C1_partial_failure_isolation.1 _ "x"
    [Json.obj [("question", Json.str "a"), ("type", Json.str "critical")]]
    [Json.obj [("question", Json.str "b")]]
    (Json.obj [("type", Json.str "weird")])
    (by decide) rfl rfl

/-- C2: each facet decoder returns an empty sequence (and cannot raise) on
content that is empty after stripping, on content the JSON parser rejects,
and on a parsed object lacking the facet's expected top-level key. -/
theorem C2_degenerate_inputs_yield_empty :
    (∀ (parse : String → Option Json) (raw : String), pyStrip raw = "" →
        analyzeQuestions parse (some raw) = [] ∧
        analyzeBias parse (some raw) = [] ∧
        analyzeSentiment parse (some raw) = []) ∧
    (∀ (parse : String → Option Json) (raw : String),
        parse (pyStrip raw) = none →
        analyzeQuestions parse (some raw) = [] ∧
        analyzeBias parse (some raw) = [] ∧
        analyzeSentiment parse (some raw) = []) ∧
    (∀ (parse : String → Option Json) (raw : String) (fields : List (String × Json)),
        parse (pyStrip raw) = some (Json.obj fields) →
        (jsonLookup fields "questions" = none →
          analyzeQuestions parse (some raw) = []) ∧
        (jsonLookup fields "biased_adjectives" = none →
          analyzeBias parse (some raw) = []) ∧
        (jsonLookup fields "entity_sentiments" = none →
          analyzeSentiment parse (some raw) = [])) := by
  refine ⟨?_, ?_, ?_⟩
  · intro parse raw h
    exact ⟨decodeFacet_strip_empty parse _ _ raw h,
           decodeFacet_strip_empty parse _ _ raw h,
           decodeFacet_strip_empty parse _ _ raw h⟩
  · intro parse raw h
    exact ⟨decodeFacet_parse_failure parse _ _ raw h,
           decodeFacet_parse_failure parse _ _ raw h,
           decodeFacet_parse_failure parse _ _ raw h⟩
  · intro parse raw fields hp
    exact ⟨fun hk => decodeFacet_missing_key parse _ _ raw fields hp hk,
           fun hk => decodeFacet_missing_key parse _ _ raw fields hp hk,
           fun hk => decodeFacet_missing_key parse _ _ raw fields hp hk⟩

/-- C2 witness: the three degenerate shapes at concrete inputs — a
whitespace-only response, a response the parser rejects, and a parsed
object carrying none of the three facet keys. -/
theorem C2_witness :
    (analyzeQuestions (fun _ => some Json.null) (some "  \n ") = [] ∧
     analyzeBias (fun _ => some Json.null) (some "  \n ") = [] ∧
     analyzeSentiment (fun _ => some Json.null) (some "  \n ") = []) ∧
    (analyzeQuestions (fun _ => none) (some "not json") = [] ∧
     analyzeBias (fun _ => none) (some "not json") = [] ∧
     analyzeSentiment (fun _ => none) (some "not json") = []) ∧
    (analyzeQuestions (fun _ => some (Json.obj [("other", Json.arr [])]))
        (some "x") = []) :=
  ⟨C2_degenerate_inputs_yield_empty.1 (fun _ => some Json.null) "  \n " (by decide),
   C2_degenerate_inputs_yield_empty.2.1 (fun _ => none) "not json" rfl,
   (C2_degenerate_inputs_yield_empty.2.2 (fun _ => some (Json.obj [("other", Json.arr [])]))
      "x" [("other", Json.arr [])] rfl).1 rfl⟩

/-- C3: every constructed `AnalysisResult` satisfies the count/list
consistency invariant — results assembled by `analyze_text`, results
returned by `analyze_text_file`, and the degenerate error result, whose
counts are all zero over an empty question list. -/
theorem C3_count_invariants :
    (∀ (cfg : AnalyzerConfig) (tryOutcome : Except String FacetResponses),
        countsConsistent (analyze_text cfg tryOutcome)) ∧
    (∀ (cfg : AnalyzerConfig) (fileExists : Bool) (file_path : String)
        (r : FacetResponses) (res : AnalysisResult),
        analyze_text_file cfg fileExists file_path r = Except.ok res →
        countsConsistent res) ∧
    (∀ (cfg : AnalyzerConfig) (e : String),
        (analyze_text cfg (Except.error e)).total_questions = 0 ∧
        (analyze_text cfg (Except.error e)).critical_questions = 0 ∧
        (analyze_text cfg (Except.error e)).confirming_questions = 0 ∧
        (analyze_text cfg (Except.error e)).question_analysis = []) := by
  refine ⟨?_, ?_, ?_⟩
  · intro cfg tryOutcome
    cases tryOutcome with
    | ok r => exact countsConsistent_assemble cfg "direct_text_input" r
    | error e => exact ⟨rfl, rfl, rfl⟩
  · intro cfg fileExists file_path r res h
    cases fileExists with
    | true =>
        simp only [analyze_text_file, if_true, Except.ok.injEq] at h
        exact h ▸ countsConsistent_assemble cfg file_path r
    | false => simp [analyze_text_file] at h
  · intro cfg e
    exact ⟨rfl, rfl, rfl, rfl⟩

/-- C3 witness: the invariant at a concrete configuration, for a concrete
file-based result and a concrete degenerate error result. -/
theorem C3_witness :
    countsConsistent
      (assembleResult ⟨"gpt-4", "Dutch", 1/10⟩ "input.txt"
        ⟨fun _ => none, none, none, none, none⟩) ∧
    (analyze_text ⟨"gpt-4", "Dutch", 1/10⟩ (Except.error "boom")).total_questions = 0 :=
  ⟨C3_count_invariants.2.1 ⟨"gpt-4", "Dutch", 1/10⟩ true "input.txt"
      ⟨fun _ => none, none, none, none, none⟩
      (assembleResult ⟨"gpt-4", "Dutch", 1/10⟩ "input.txt"
        ⟨fun _ => none, none, none, none, none⟩) rfl,
   (C3_count_invariants.2.2 ⟨"gpt-4", "Dutch", 1/10⟩ "boom").1⟩

/-- C4: `analyze_text` never raises — when the outer boundary catches an
unexpected error `e`, it returns the valid degenerate result: zero counts,
empty record sequences, an error-describing summary, and an `error` key in
its metadata. -/
theorem C4_outer_boundary_degenerate_result :
    ∀ (cfg : AnalyzerConfig) (e : String),
      (analyze_text cfg (Except.error e)).total_questions = 0 ∧
      (analyze_text cfg (Except.error e)).critical_questions = 0 ∧
      (analyze_text cfg (Except.error e)).confirming_questions = 0 ∧
      (analyze_text cfg (Except.error e)).question_analysis = [] ∧
      (analyze_text cfg (Except.error e)).biased_adjectives = [] ∧
      (analyze_text cfg (Except.error e)).entity_sentiments = [] ∧
      (analyze_text cfg (Except.error e)).summary = "Fout tijdens analyse: " ++ e ∧
      ((analyze_text cfg (Except.error e)).metadata.map Prod.fst).contains "error" = true := by
  intro cfg e
  refine ⟨rfl, rfl, rfl, rfl, rfl, rfl, rfl, ?_⟩
  simp [analyze_text]

/-- C5: an array entry whose string fields, confidence, or (for sentiment)
supporting_quotes are missing is still constructed, with empty-string, 0.0,
and empty-sequence defaults respectively; for the tag-bearing facets this
needs only that the tag, when present, is a recognized one. -/
theorem C5_missing_field_defaults :
    (∀ fields : List (String × Json),
        (jsonLookup fields "type" = none ∨
          ∃ t qt, jsonLookup fields "type" = some t ∧ QuestionType.ofJson t = some qt) →
        ∃ rec, decodeQuestionEntry (Json.obj fields) = some rec ∧
          (jsonLookup fields "question" = none → rec.question_text = Json.str "") ∧
          (jsonLookup fields "confidence" = none → rec.confidence = Json.num 0) ∧
          (jsonLookup fields "reasoning" = none → rec.reasoning = Json.str "") ∧
          (jsonLookup fields "context" = none → rec.context = Json.str "")) ∧
    (∀ fields : List (String × Json),
        ∃ rec, decodeBiasEntry (Json.obj fields) = some rec ∧
          (jsonLookup fields "adjective" = none → rec.adjective = Json.str "") ∧
          (jsonLookup fields "target_person" = none → rec.target_person = Json.str "") ∧
          (jsonLookup fields "bias_type" = none → rec.bias_type = Json.str "") ∧
          (jsonLookup fields "confidence" = none → rec.confidence = Json.num 0) ∧
          (jsonLookup fields "reasoning" = none → rec.reasoning = Json.str "") ∧
          (jsonLookup fields "context" = none → rec.context = Json.str "")) ∧
    (∀ fields : List (String × Json),
        (jsonLookup fields "sentiment" = none ∨
          ∃ t st, jsonLookup fields "sentiment" = some t ∧ SentimentType.ofJson t = some st) →
        ∃ rec, decodeSentimentEntry (Json.obj fields) = some rec ∧
          (jsonLookup fields "entity_name" = none → rec.entity_name = Json.str "") ∧
          (jsonLookup fields "entity_type" = none → rec.entity_type = Json.str "") ∧
          (jsonLookup fields "confidence" = none → rec.confidence = Json.num 0) ∧
          (jsonLookup fields "reasoning" = none → rec.reasoning = Json.str "") ∧
          (jsonLookup fields "context" = none → rec.context = Json.str "") ∧
          (jsonLookup fields "supporting_quotes" = none →
            rec.supporting_quotes = Json.arr [])) := by
  refine ⟨?_, ?_, ?_⟩
  · intro fields h
    rw [decodeQuestionEntry_obj]
    have htag : ∃ qt, QuestionType.ofJson
        ((jsonLookup fields "type").getD (Json.str "neutral")) = some qt := by
      rcases h with hnone | ⟨t, qt, ht, hqt⟩
      · exact ⟨QuestionType.NEUTRAL, by rw [hnone]; rfl⟩
      · exact ⟨qt, by rw [ht]; exact hqt⟩
    rcases htag with ⟨qt, hqt⟩
    rw [hqt]
    exact ⟨_, rfl, fun hm => by simp [hm], fun hm => by simp [hm],
           fun hm => by simp [hm], fun hm => by simp [hm]⟩
  · intro fields
    rw [decodeBiasEntry_obj]
    exact ⟨_, rfl, fun hm => by simp [hm], fun hm => by simp [hm],
           fun hm => by simp [hm], fun hm => by simp [hm],
           fun hm => by simp [hm], fun hm => by simp [hm]⟩
  · intro fields h
    rw [decodeSentimentEntry_obj]
    have htag : ∃ st, SentimentType.ofJson
        ((jsonLookup fields "sentiment").getD (Json.str "neutral")) = some st := by
      rcases h with hnone | ⟨t, st, ht, hst⟩
      · exact ⟨SentimentType.NEUTRAL, by rw [hnone]; rfl⟩
      · exact ⟨st, by rw [ht]; exact hst⟩
    rcases htag with ⟨st, hst⟩
    rw [hst]
    exact ⟨_, rfl, fun hm => by simp [hm], fun hm => by simp [hm],
           fun hm => by simp [hm], fun hm => by simp [hm],
           fun hm => by simp [hm], fun hm => by simp [hm]⟩

/-- C5 witness: the empty entry object constructs a question record whose
fields all carry the documented defaults. -/
theorem C5_witness :
    ∃ rec, decodeQuestionEntry (Json.obj []) = some rec ∧
      rec.question_text = Json.str "" ∧ rec.confidence = Json.num 0 ∧
      rec.reasoning = Json.str "" ∧ rec.context = Json.str "" := by
  obtain ⟨rec, h1, h2, h3, h4, h5⟩ := C5_missing_field_defaults.1 [] (Or.inl rfl)
  exact ⟨rec, h1, h2 rfl, h3 rfl, h4 rfl, h5 rfl⟩

/-- The line loop keeps, in order, exactly the stripped lines that are
neither digit-only, nor time-range lines, nor empty. -/
theorem srtTextLines_eq_filter (lines : List String) :
    srtTextLines lines =
      (lines.map pyStrip).filter
        (fun l => !pyIsDigit l && !hasArrow l && !(l = "")) := by
  induction lines with
  | nil => rfl
  | cons a rest ih =>
      simp only [srtTextLines, List.map_cons, List.filter_cons]
      by_cases h1 : pyIsDigit (pyStrip a) <;>
        by_cases h2 : hasArrow (pyStrip a) <;>
          by_cases h3 : pyStrip a = "" <;>
            simp [h1, h2, h3, ih]

/-- C6: `parse_srt_file` keeps only the text lines — discarding index
lines and `-->` time-range lines — and joins them with single spaces; on
the spec's concrete eight-line input it returns "Hello world Foo bar". -/
theorem C6_srt_text_extraction (f : SrtFile) (lines : List String)
    (hex : f.fileExists = true) (hdec : f.utf8Lines = some lines) :
    parse_srt_file f =
      Except.ok (String.intercalate " "
        ((lines.map pyStrip).filter
          (fun l => !pyIsDigit l && !hasArrow l && !(l = "")))) ∧
    parse_srt_file
        { fileExists := true
          utf8Lines := some ["1", "00:00:01,000 --> 00:00:02,000", "Hello world", "",
                             "2", "00:00:02,000 --> 00:00:03,000", "Foo bar", ""]
          latin1Lines := none }
      = Except.ok "Hello world Foo bar" := by
  constructor
  · simp [parse_srt_file, hex, hdec, srtTextLines_eq_filter]
  · rfl

/-- C6 witness: the concrete sequential-block input from the spec. -/
theorem C6_witness :
    parse_srt_file
        { fileExists := true
          utf8Lines := some ["1", "00:00:01,000 --> 00:00:02,000", "Hello world", "",
                             "2", "00:00:02,000 --> 00:00:03,000", "Foo bar", ""]
          latin1Lines := none }
      = Except.ok "Hello world Foo bar" :=
  (C6_srt_text_extraction
    { fileExists := true
      utf8Lines := some ["1", "00:00:01,000 --> 00:00:02,000", "Hello world", "",
                         "2", "00:00:02,000 --> 00:00:03,000", "Foo bar", ""]
      latin1Lines := none }
    ["1", "00:00:01,000 --> 00:00:02,000", "Hello world", "",
     "2", "00:00:02,000 --> 00:00:03,000", "Foo bar", ""] rfl rfl).2

/-- C7: on an existing video-extension input with ffmpeg unavailable,
`diarize` raises the fatal video-processing-unavailable error, runs no
diarization subprocess, and creates no temporary audio file. -/
theorem C7_video_without_ffmpeg (env : DiarizeEnv)
    (hvid : is_video_file env.audio_file = true)
    (hex : env.fileExists = true)
    (hff : env.ffmpegAvailable = false) :
    diarize env =
      (Except.error ("ffmpeg is required for video processing. " ++
         "Please install ffmpeg: https://ffmpeg.org/download.html"), []) ∧
    FsEvent.createdTempAudio ∉ (diarize env).2 ∧
    FsEvent.ranDiarizationSubprocess ∉ (diarize env).2 := by
  have h : diarize env =
      (Except.error ("ffmpeg is required for video processing. " ++
         "Please install ffmpeg: https://ffmpeg.org/download.html"), []) := by
    simp [diarize, hex, hvid, extract_audio_from_video, hff]
  exact ⟨h, by simp [h], by simp [h]⟩

/-- C7 witness: an existing `.mp4` input with ffmpeg missing. -/
theorem C7_witness :
    diarize { audio_file := "talk.mp4", fileExists := true, ffmpegAvailable := false,
              ffmpegExtract := Except.ok (), diarizeSubprocess := Except.ok "out" } =
      (Except.error ("ffmpeg is required for video processing. " ++
         "Please install ffmpeg: https://ffmpeg.org/download.html"), []) :=
  (C7_video_without_ffmpeg
    { audio_file := "talk.mp4", fileExists := true, ffmpegAvailable := false,
      ffmpegExtract := Except.ok (), diarizeSubprocess := Except.ok "out" }
    (by decide) rfl rfl).1

/-- C8: whenever a `diarize` call creates the temporary extracted-audio
file, its event trace also deletes it — on subprocess success, nonzero
exit, and on the extraction step's own failure alike. -/
theorem C8_temp_audio_always_deleted (env : DiarizeEnv)
    (h : FsEvent.createdTempAudio ∈ (diarize env).2) :
    FsEvent.deletedTempAudio ∈ (diarize env).2 := by
  obtain ⟨af, fe, ff, fx, ds⟩ := env
  by_cases hv : is_video_file af <;>
    cases fe <;> cases ff <;> cases fx <;> cases ds <;>
      simp_all [diarize, extract_audio_from_video]

/-- C8 witness: a successful video run creates the temporary file and its
trace deletes it. -/
theorem C8_witness :
    FsEvent.deletedTempAudio ∈
      (diarize { audio_file := "v.mp4", fileExists := true, ffmpegAvailable := true,
                 ffmpegExtract := Except.ok (), diarizeSubprocess := Except.ok "out" }).2 :=
  C8_temp_audio_always_deleted
    { audio_file := "v.mp4", fileExists := true, ffmpegAvailable := true,
      ffmpegExtract := Except.ok (), diarizeSubprocess := Except.ok "out" }
    (by decide)

/-- C9: for every subprocess stdout and audio path, `_parse_output` returns
the structurally valid placeholder result with empty speaker and
transcription sequences. -/
theorem C9_parse_output_placeholder :
    ∀ (output audio_file : String),
      (parse_output output audio_file).speakers = [] ∧
      (parse_output output audio_file).transcription = [] ∧
      (parse_output output audio_file).audio_file = audio_file :=
  fun _ _ => ⟨rfl, rfl, rfl⟩

/-- C10: an entry lacking the tag key entirely is kept and defaults to the
neutral tag (questions and sentiment alike); only a present but
unrecognized tag value drops the entry. -/
theorem C10_absent_tag_defaults_neutral :
    (∀ fields : List (String × Json), jsonLookup fields "type" = none →
        ∃ rec, decodeQuestionEntry (Json.obj fields) = some rec ∧
          rec.question_type = QuestionType.NEUTRAL) ∧
    (∀ fields : List (String × Json), jsonLookup fields "sentiment" = none →
        ∃ rec, decodeSentimentEntry (Json.obj fields) = some rec ∧
          rec.sentiment = SentimentType.NEUTRAL) ∧
    (∀ (fields : List (String × Json)) (t : Json),
        jsonLookup fields "type" = some t → QuestionType.ofJson t = none →
        decodeQuestionEntry (Json.obj fields) = none) ∧
    (∀ (fields : List (String × Json)) (t : Json),
        jsonLookup fields "sentiment" = some t → SentimentType.ofJson t = none →
        decodeSentimentEntry (Json.obj fields) = none) := by
  refine ⟨?_, ?_, ?_, ?_⟩
  · intro fields hnone
    rw [decodeQuestionEntry_obj, hnone]
    exact ⟨_, rfl, rfl⟩
  · intro fields hnone
    rw [decodeSentimentEntry_obj, hnone]
    exact ⟨_, rfl, rfl⟩
  · intro fields t ht hbad
    rw [decodeQuestionEntry_obj, ht]
    simp [hbad]
  · intro fields t ht hbad
    rw [decodeSentimentEntry_obj, ht]
    simp [hbad]

/-- C10 witness: an entry with no `type` key is kept as neutral; an entry
with the unrecognized tag "weird" is dropped. -/
theorem C10_witness :
    (∃ rec, decodeQuestionEntry (Json.obj [("question", Json.str "q")]) = some rec ∧
       rec.question_type = QuestionType.NEUTRAL) ∧
    decodeQuestionEntry (Json.obj [("type", Json.str "weird")]) = none :=
  ⟨C10_absent_tag_defaults_neutral.1 [("question", Json.str "q")] rfl,
   C10_absent_tag_defaults_neutral.2.2.1 [("type", Json.str "weird")]
     (Json.str "weird") rfl rfl⟩
